import Mathlib

/-!
Shallow embedding of the authentication layer of the websocket-chat-demo
repository (src/auth.go) together with the Hub registry operation named by
the specification.

Cryptographic signatures are modelled symbolically: a signature records
exactly the algorithm, the signed claims and the key, so a signature
verifies under a key precisely when it was produced over the same claims
with the same algorithm and that key.  Time is modelled as integer Unix
seconds, matching the second precision of JWT numeric dates.  The JWT wire
format is abstracted by a `parse` function supplied to the entry points
that consume serialized tokens.
-/

namespace WSChat

/-- JWT signing algorithms, as designated by the `alg` token header.  The
HS* family is golang-jwt's `SigningMethodHMAC`; the others are distinct
method types in that library. -/
inductive Alg where
  | HS256
  | HS384
  | HS512
  | RS256
  | ES256
  | algNone
deriving DecidableEq, Repr

/-- Whether the method value is of Go type `*jwt.SigningMethodHMAC`, the
type assertion performed inside `validateToken`'s keyfunc. -/
def Alg.isHMAC : Alg → Bool
  | .HS256 => true
  | .HS384 => true
  | .HS512 => true
  | _ => false

/-- Keys are opaque strings (`jwtSecret` is a fixed byte string). -/
abbrev Key := String

/-- The `Claims` struct of auth.go: a custom `guest_name` field plus the
registered claims actually set by this program (`exp`, `iat`), optional
because a parsed token need not carry them. -/
structure Claims where
  guestName : String
  expiresAt : Option Int
  issuedAt : Option Int
deriving DecidableEq, Repr

/-- Symbolic MAC value: records what was signed, with which algorithm and
key. -/
structure Sig where
  alg : Alg
  payload : Claims
  key : Key
deriving DecidableEq, Repr

/-- Produce the (symbolic) signature of `c` under algorithm `alg` and key
`k`. -/
def sign (alg : Alg) (c : Claims) (k : Key) : Sig :=
  { alg := alg, payload := c, key := k }

/-- A decoded JWT: header algorithm, claims, attached signature. -/
structure Token where
  alg : Alg
  claims : Claims
  sig : Sig
deriving DecidableEq, Repr

/-- The hard-coded signing secret of auth.go. -/
def jwtSecret : Key := "your-secret-key-change-in-production"

/-- `generateGuestToken` of auth.go: claims carry the guest name, an
expiry 24 hours from now and the issue instant, signed with HS256 under
`jwtSecret`.  Returns the token and `expirationTime.Unix()`.  (The Go
error return is always nil for HMAC signing with a byte-slice key, so it
is omitted.) -/
def generateGuestToken (now : Int) (guestName : String) : Token × Int :=
  let expirationTime := now + 24 * 3600
  let claims : Claims :=
    { guestName := guestName, expiresAt := some expirationTime, issuedAt := some now }
  ({ alg := Alg.HS256, claims := claims, sig := sign Alg.HS256 claims jwtSecret },
   expirationTime)

/-- `validateToken` of auth.go, on an already-decoded token.  Mirrors
`jwt.ParseWithClaims` with the keyfunc of auth.go, in golang-jwt v5's
order: the keyfunc rejects any method that is not `*jwt.SigningMethodHMAC`;
then the signature is verified against `jwtSecret`; then the default
validator checks `exp` (valid only strictly before the expiry instant;
absent `exp` is not an error).  `token.Valid` is true exactly when no
step failed, so the final `!token.Valid` branch of the Go code is
unreachable and has no counterpart here. -/
def validateToken (now : Int) (t : Token) : Except String Claims :=
  if t.alg.isHMAC = false then
    Except.error "token is unverifiable: unexpected signing method"
  else if t.sig ≠ sign t.alg t.claims jwtSecret then
    Except.error "token signature is invalid"
  else
    match t.claims.expiresAt with
    | none => Except.ok t.claims
    | some e =>
        if now < e then Except.ok t.claims
        else Except.error "token has invalid claims: token is expired"

/-- An incoming HTTP request, restricted to the fields auth.go reads:
`r.Header.Get("Authorization")` and `r.URL.Query().Get("token")`, each the
empty string when absent. -/
structure Request where
  authHeader : String
  queryToken : String
deriving DecidableEq, Repr

/-- Go's `strings.Split` with a single-character separator, on character
lists: every maximal separator-free run, empty runs included. -/
def splitOnChar (sep : Char) : List Char → List (List Char)
  | [] => [[]]
  | c :: cs =>
    match splitOnChar sep cs with
    | [] => [[]]
    | w :: ws => if c = sep then [] :: w :: ws else (c :: w) :: ws

/-- Go's `strings.Split s sep` for a single-character `sep`, on strings. -/
def goSplit (s : String) (sep : Char) : List String :=
  (splitOnChar sep s.data).map (fun cs => String.mk cs)

/-- The Authorization-header branch of `extractTokenFromRequest`: when the
header is non-empty, split on spaces; if there are exactly two parts and
the first is `"Bearer"`, the second part is the token. -/
def bearerToken (authHeader : String) : Option String :=
  if authHeader = "" then none
  else
    match goSplit authHeader ' ' with
    | [p0, p1] => if p0 = "Bearer" then some p1 else none
    | _ => none

/-- `extractTokenFromRequest` of auth.go, returning Go's `(string, error)`
pair: the bearer header branch first, else a non-empty `token` query
parameter, else the error `"no token found in request"`. -/
def extractTokenFromRequest (r : Request) : String × Option String :=
  match bearerToken r.authHeader with
  | some tok => (tok, none)
  | none =>
      if r.queryToken = "" then ("", some "no token found in request")
      else (r.queryToken, none)

/-- `validateToken` applied to a serialized token string: `parse` stands
for JWT compact-form decoding (`jwt.ParseWithClaims`' `ParseUnverified`
stage); a string that does not decode fails as malformed. -/
def validateTokenString (parse : String → Option Token) (now : Int) (s : String) :
    Except String Claims :=
  match parse s with
  | none => Except.error "token is malformed"
  | some t => validateToken now t

/-- `authenticateWebSocket` of auth.go, returning Go's `(string, error)`
pair: extract the token, validate it, and return the guest name from the
claims; any failure returns the empty string with an error, the validation
error wrapped with the prefix `"invalid token: "`. -/
def authenticateWebSocket (parse : String → Option Token) (now : Int) (r : Request) :
    String × Option String :=
  match extractTokenFromRequest r with
  | (_, some e) => ("", some e)
  | (s, none) =>
      match validateTokenString parse now s with
      | Except.error e => ("", some ("invalid token: " ++ e))
      | Except.ok claims => (claims.guestName, none)

/-- The successful JSON body of `handleGetToken` (its `Token` field is the
decoded token here, the wire format being abstracted). -/
structure TokenResponse where
  token : Token
  guestName : String
  expiresAt : Int
deriving DecidableEq, Repr

/-- `handleGetToken` of auth.go: any method other than GET or POST is
answered with status 405 and an error body; otherwise a guest name
`"guest-" ++ randomHexStrings()` is minted and a token issued for it.
(The 500 branch guards the always-nil HMAC signing error and is
unreachable.) -/
def handleGetToken (now : Int) (method : String) (randomHex : String) :
    Except (Nat × String) TokenResponse :=
  if method ≠ "GET" ∧ method ≠ "POST" then
    Except.error (405, "Method not allowed")
  else
    let guestName := "guest-" ++ randomHex
    let p := generateGuestToken now guestName
    Except.ok { token := p.1, guestName := guestName, expiresAt := p.2 }

/-- Modelled from the spec: the Hub registry, "the set of all currently
live Client Sessions" — the Hub's Go source is not under src/.  Sessions
are identified by natural numbers; the registry is a finite set of
session identifiers. -/
abbrev Registry := Finset Nat

/-- Modelled from the spec: `unregister(session)` "removes session if
present; no-op if already removed". -/
def unregister (reg : Registry) (s : Nat) : Registry := reg.erase s

/-- Decidable equality of results, so concrete runs of the embedded
functions can be checked by evaluation. -/
instance {ε α : Type} [DecidableEq ε] [DecidableEq α] : DecidableEq (Except ε α) := fun a b =>
  match a, b with
  | Except.error x, Except.error y =>
      if h : x = y then Decidable.isTrue (congrArg Except.error h)
      else Decidable.isFalse (fun hh => Except.noConfusion hh (fun h2 => h h2))
  | Except.error _, Except.ok _ => Decidable.isFalse (fun hh => Except.noConfusion hh)
  | Except.ok _, Except.error _ => Decidable.isFalse (fun hh => Except.noConfusion hh)
  | Except.ok x, Except.ok y =>
      if h : x = y then Decidable.isTrue (congrArg Except.ok h)
      else Decidable.isFalse (fun hh => Except.noConfusion hh (fun h2 => h h2))

/-! Concrete values used by counterexamples and witnesses. -/

/-- Well-formed claims (identity, expiry, issue instant all set). -/
def hs384Claims : Claims :=
  { guestName := "guest-ab", expiresAt := some 86400, issuedAt := some 0 }

/-- A token signed with HS384 — an HMAC method, but not the HS256 scheme
the issuer `generateGuestToken` uses — over `jwtSecret`. -/
def hs384Token : Token :=
  { alg := Alg.HS384, claims := hs384Claims, sig := sign Alg.HS384 hs384Claims jwtSecret }

/-- A decoder that recognizes the serialized form of `hs384Token`. -/
def hs384Decode : String → Option Token :=
  fun s => if s = "t384" then some hs384Token else none

/-- A token signed with RS256, outside the HMAC family. -/
def rs256Token : Token :=
  { alg := Alg.RS256, claims := hs384Claims, sig := sign Alg.RS256 hs384Claims jwtSecret }

/-- A decoder that recognizes the serialized form of `rs256Token`. -/
def rs256Decode : String → Option Token :=
  fun s => if s = "t256" then some rs256Token else none

/-- A decoder that recognizes the serialized form of the token issued to
guest "alice" at instant 0. -/
def aliceDecode : String → Option Token :=
  fun s => if s = "trt" then some (generateGuestToken 0 "alice").1 else none

/-- A token issued at instant 0 that expired at instant 100. -/
def staleToken : Token :=
  let c : Claims := { guestName := "guest-cd", expiresAt := some 100, issuedAt := some 0 }
  { alg := Alg.HS256, claims := c, sig := sign Alg.HS256 c jwtSecret }

/-- A decoder that recognizes the serialized form of `staleToken`. -/
def staleDecode : String → Option Token :=
  fun s => if s = "tex" then some staleToken else none

/-- Claims that are valid but carry the empty guest name. -/
def emptyNameClaims : Claims :=
  { guestName := "", expiresAt := some 86400, issuedAt := some 0 }

/-- A correctly HS256-signed, unexpired token whose guest name is empty. -/
def emptyNameToken : Token :=
  { alg := Alg.HS256, claims := emptyNameClaims,
    sig := sign Alg.HS256 emptyNameClaims jwtSecret }

/-- A decoder that recognizes the serialized form of `emptyNameToken`. -/
def emptyNameDecode : String → Option Token :=
  fun s => if s = "tmt" then some emptyNameToken else none

/-- The response `handleGetToken 0 "GET" "ab"` produces. -/
def tokenRespW : TokenResponse :=
  { token := (generateGuestToken 0 "guest-ab").1, guestName := "guest-ab", expiresAt := 86400 }

/-! Helper lemmas shared by the claims. -/

/-- When extraction succeeds and the extracted string validates with an
error, `authenticateWebSocket` returns the empty identity and the wrapped
error. -/
theorem auth_error_of_validate_error (parse : String → Option Token) (now : Int)
    (r : Request) (s msg : String)
    (hex : extractTokenFromRequest r = (s, none))
    (hval : validateTokenString parse now s = Except.error msg) :
    authenticateWebSocket parse now r = ("", some ("invalid token: " ++ msg)) := by
  unfold authenticateWebSocket
  rw [hex]
  dsimp only
  rw [hval]

/-- When extraction succeeds and the extracted string validates to claims
`c`, `authenticateWebSocket` returns `c`'s guest name with no error. -/
theorem auth_ok_of_validate_ok (parse : String → Option Token) (now : Int)
    (r : Request) (s : String) (c : Claims)
    (hex : extractTokenFromRequest r = (s, none))
    (hval : validateTokenString parse now s = Except.ok c) :
    authenticateWebSocket parse now r = (c.guestName, none) := by
  unfold authenticateWebSocket
  rw [hex]
  dsimp only
  rw [hval]

/-- A token outside the HMAC method family is rejected with the keyfunc's
error, whatever its claims and signature. -/
theorem validateToken_error_of_nonHMAC (now : Int) (t : Token)
    (h : t.alg.isHMAC = false) :
    validateToken now t = Except.error "token is unverifiable: unexpected signing method" := by
  unfold validateToken
  rw [h]
  simp

/-! The claims. -/

/-- C1 counterexample: `hs384Token` carries algorithm HS384, not the HS256
scheme the issuer uses, its claims are well-formed and its signature
verifies under HS384 with `jwtSecret`; yet `validateToken` accepts it
before its expiry, and `authenticateWebSocket` admits a request carrying
it, returning its guest name.  So validation does not accept only one
signing scheme. -/
theorem validateToken_accepts_hs384 :
    hs384Token.alg ≠ Alg.HS256 ∧
    hs384Token.sig = sign hs384Token.alg hs384Token.claims jwtSecret ∧
    validateToken 500 hs384Token = Except.ok hs384Claims ∧
    authenticateWebSocket hs384Decode 500 { authHeader := "", queryToken := "t384" } =
      ("guest-ab", none) :=
  ⟨by decide, rfl, by decide, by decide⟩

/-- C1 (amended): `validateToken` accepts only the HMAC family of signing
methods: every token whose method is not HMAC (HS256/HS384/HS512) fails
validation, and `authenticateWebSocket` rejects any request carrying such
a token, even when its claims are well-formed and its signature verifies
under the other algorithm. -/
theorem validateToken_rejects_nonHMAC (now : Int) (t : Token)
    (h : t.alg.isHMAC = false) :
    (∃ msg, validateToken now t = Except.error msg) ∧
    (∀ (parse : String → Option Token) (r : Request) (s : String),
      extractTokenFromRequest r = (s, none) → parse s = some t →
      ∃ msg, authenticateWebSocket parse now r = ("", some msg)) := by
  have hval := validateToken_error_of_nonHMAC now t h
  refine ⟨⟨_, hval⟩, ?_⟩
  intro parse r s hex hparse
  have hvs : validateTokenString parse now s =
      Except.error "token is unverifiable: unexpected signing method" := by
    unfold validateTokenString
    rw [hparse]
    exact hval
  exact ⟨_, auth_error_of_validate_error parse now r s _ hex hvs⟩

/-- C1 witness: the RS256-signed token is rejected at instant 500, and a
request carrying it in the query parameter is rejected. -/
theorem validateToken_rejects_nonHMAC_witness :
    (∃ msg, validateToken 500 rs256Token = Except.error msg) ∧
    (∀ (parse : String → Option Token) (r : Request) (s : String),
      extractTokenFromRequest r = (s, none) → parse s = some rs256Token →
      ∃ msg, authenticateWebSocket parse 500 r = ("", some msg)) :=
  validateToken_rejects_nonHMAC 500 rs256Token (by decide)

/-- C2: issuance/verification round-trip.  Validating the token issued by
`generateGuestToken` for `name` at instant `t0`, at any instant strictly
before its expiry `t0 + 24h`, succeeds with claims whose guest name is
`name`; and `authenticateWebSocket` on a request carrying that token
returns exactly `name` with no error. -/
theorem generateGuestToken_validate_roundtrip (t0 now : Int) (name : String)
    (parse : String → Option Token) (r : Request) (s : String)
    (hnow : now < t0 + 24 * 3600)
    (hex : extractTokenFromRequest r = (s, none))
    (hparse : parse s = some (generateGuestToken t0 name).1) :
    (∃ c, validateToken now (generateGuestToken t0 name).1 = Except.ok c ∧
       c.guestName = name) ∧
    authenticateWebSocket parse now r = (name, none) := by
  have hval : validateToken now (generateGuestToken t0 name).1 =
      Except.ok { guestName := name, expiresAt := some (t0 + 24 * 3600), issuedAt := some t0 } := by
    unfold validateToken generateGuestToken
    dsimp only
    rw [if_neg (by simp [Alg.isHMAC]), if_neg (by simp), if_pos hnow]
  have hvs : validateTokenString parse now s =
      Except.ok { guestName := name, expiresAt := some (t0 + 24 * 3600), issuedAt := some t0 } := by
    unfold validateTokenString
    rw [hparse]
    exact hval
  exact ⟨⟨_, hval, rfl⟩, auth_ok_of_validate_ok parse now r s _ hex hvs⟩

/-- C2 witness: the token issued to "alice" at instant 0 validates at
instant 500 and admits a request carrying it as "alice". -/
theorem generateGuestToken_validate_roundtrip_witness :
    (∃ c, validateToken 500 (generateGuestToken 0 "alice").1 = Except.ok c ∧
       c.guestName = "alice") ∧
    authenticateWebSocket aliceDecode 500 { authHeader := "", queryToken := "trt" } =
      ("alice", none) :=
  generateGuestToken_validate_roundtrip 0 500 "alice" aliceDecode
    { authHeader := "", queryToken := "trt" } "trt" (by decide) (by decide) (by decide)

/-- C3: a token whose expiry instant has passed fails validation, and
`authenticateWebSocket` rejects (empty identity, an error) every request
carrying it. -/
theorem validateToken_rejects_expired (now : Int) (t : Token) (e : Int)
    (hexp : t.claims.expiresAt = some e) (hpassed : e < now) :
    (∃ msg, validateToken now t = Except.error msg) ∧
    (∀ (parse : String → Option Token) (r : Request) (s : String),
      extractTokenFromRequest r = (s, none) → parse s = some t →
      ∃ msg, authenticateWebSocket parse now r = ("", some msg)) := by
  have hval : ∃ msg, validateToken now t = Except.error msg := by
    unfold validateToken
    rw [hexp]
    by_cases h1 : t.alg.isHMAC = false
    · rw [if_pos h1]; exact ⟨_, rfl⟩
    · rw [if_neg h1]
      by_cases h2 : t.sig ≠ sign t.alg t.claims jwtSecret
      · rw [if_pos h2]; exact ⟨_, rfl⟩
      · rw [if_neg h2]
        dsimp only
        rw [if_neg (by omega)]
        exact ⟨_, rfl⟩
  obtain ⟨msg, hval⟩ := hval
  refine ⟨⟨msg, hval⟩, ?_⟩
  intro parse r s hex hparse
  have hvs : validateTokenString parse now s = Except.error msg := by
    unfold validateTokenString
    rw [hparse]
    exact hval
  exact ⟨_, auth_error_of_validate_error parse now r s msg hex hvs⟩

/-- C3 witness: `staleToken` (expired at instant 100) is rejected at
instant 500, and a request carrying it in the query parameter is
rejected. -/
theorem validateToken_rejects_expired_witness :
    (∃ msg, validateToken 500 staleToken = Except.error msg) ∧
    (∀ (parse : String → Option Token) (r : Request) (s : String),
      extractTokenFromRequest r = (s, none) → parse s = some staleToken →
      ∃ msg, authenticateWebSocket parse 500 r = ("", some msg)) :=
  validateToken_rejects_expired 500 staleToken 100 (by decide) (by decide)

/-- C4: header precedence.  When the Authorization header splits on spaces
into exactly `["Bearer", tok]` and the `token` query parameter is
non-empty, extraction returns the header's token `tok`, never the query
parameter's value. -/
theorem extractToken_header_precedence (r : Request) (tok : String)
    (hhdr : goSplit r.authHeader ' ' = ["Bearer", tok])
    (hq : r.queryToken ≠ "") :
    extractTokenFromRequest r = (tok, none) := by
  have hne : r.authHeader ≠ "" := by
    intro h0
    rw [h0, show goSplit "" ' ' = [""] from rfl] at hhdr
    simp at hhdr
  have hb : bearerToken r.authHeader = some tok := by
    unfold bearerToken
    rw [if_neg hne, hhdr]
    simp
  unfold extractTokenFromRequest
  rw [hb]

/-- C4 witness: with header "Bearer abc" and query parameter "qqq",
extraction returns "abc". -/
theorem extractToken_header_precedence_witness :
    extractTokenFromRequest { authHeader := "Bearer abc", queryToken := "qqq" } =
      ("abc", none) :=
  extractToken_header_precedence { authHeader := "Bearer abc", queryToken := "qqq" }
    "abc" (by decide) (by decide)

/-- C5 counterexample: for the request with header "Bearer " (token part
empty) and empty query parameter, neither source yields a non-empty
credential, yet extraction succeeds — and returns the empty credential
string.  Both directions of the claim fail at this input. -/
theorem extractToken_empty_bearer_succeeds :
    extractTokenFromRequest { authHeader := "Bearer ", queryToken := "" } = ("", none) := by
  decide

/-- C5 (amended): extraction fails exactly when the Authorization header
has no well-formed two-part Bearer value and the query parameter is
empty.  On success away from the header path the credential is the
non-empty query parameter; the header path returns the header's token
part, which can be empty (header "Bearer "). -/
theorem extractToken_failure_characterization (r : Request) :
    ((extractTokenFromRequest r).2.isSome = true ↔
        bearerToken r.authHeader = none ∧ r.queryToken = "") ∧
    (bearerToken r.authHeader = none → (extractTokenFromRequest r).2 = none →
        (extractTokenFromRequest r).1 = r.queryToken ∧ r.queryToken ≠ "") ∧
    (∀ tok, bearerToken r.authHeader = some tok →
        extractTokenFromRequest r = (tok, none)) := by
  unfold extractTokenFromRequest
  cases hb : bearerToken r.authHeader with
  | some tok => simp
  | none =>
      by_cases hq : r.queryToken = "" <;> simp [hq]

/-- C9: implicit header-fallback.  A non-empty Authorization header that
does not split into exactly two space-separated parts with first part
"Bearer" is ignored entirely: extraction behaves exactly as the
query-parameter path (the query token when non-empty, else the
missing-token error), never failing on the malformed header itself. -/
theorem extractToken_malformed_header_fallback (r : Request)
    (h1 : r.authHeader ≠ "")
    (h2 : ∀ tok, goSplit r.authHeader ' ' ≠ ["Bearer", tok]) :
    extractTokenFromRequest r =
      (if r.queryToken = "" then ("", some "no token found in request")
       else (r.queryToken, none)) := by
  have hb : bearerToken r.authHeader = none := by
    unfold bearerToken
    rw [if_neg h1]
    cases hsplit : goSplit r.authHeader ' ' with
    | nil => rfl
    | cons p0 tail =>
        cases tail with
        | nil => rfl
        | cons p1 rest =>
            cases rest with
            | nil =>
                dsimp only
                rw [if_neg ?_]
                intro hp
                subst hp
                exact h2 p1 hsplit
            | cons q qs => rfl
  unfold extractTokenFromRequest
  rw [hb]

/-- C9 witness: header "Token x" is malformed; with query parameter "q"
extraction falls back and returns "q". -/
theorem extractToken_malformed_header_fallback_witness :
    extractTokenFromRequest { authHeader := "Token x", queryToken := "q" } = ("q", none) :=
  (extractToken_malformed_header_fallback { authHeader := "Token x", queryToken := "q" }
      (by decide)
      (by
        intro tok h
        rw [show goSplit "Token x" ' ' = ["Token", "x"] from by decide] at h
        exact absurd (List.head_eq_of_cons_eq h) (by decide))).trans (by decide)

/-- C6: issuance postcondition.  Every successful `handleGetToken` run
returns a response whose token's embedded guest name equals the returned
guest identity, whose token's embedded expiry equals the returned
`expires_at`, and whose `expires_at` is exactly 24 hours after the
issuance instant. -/
theorem handleGetToken_postcondition (now : Int) (method randomHex : String)
    (resp : TokenResponse)
    (h : handleGetToken now method randomHex = Except.ok resp) :
    resp.token.claims.guestName = resp.guestName ∧
    resp.token.claims.expiresAt = some resp.expiresAt ∧
    resp.expiresAt = now + 24 * 3600 := by
  unfold handleGetToken at h
  by_cases hm : method ≠ "GET" ∧ method ≠ "POST"
  · rw [if_pos hm] at h
    cases h
  · rw [if_neg hm] at h
    injection h with h
    subst h
    exact ⟨rfl, rfl, rfl⟩

/-- C6 witness: the response issued at instant 0 for the guest suffix
"ab" satisfies the postcondition. -/
theorem handleGetToken_postcondition_witness :
    tokenRespW.token.claims.guestName = tokenRespW.guestName ∧
    tokenRespW.token.claims.expiresAt = some tokenRespW.expiresAt ∧
    tokenRespW.expiresAt = 0 + 24 * 3600 :=
  handleGetToken_postcondition 0 "GET" "ab" tokenRespW (by decide)

/-- C7 counterexample: `emptyNameToken` is correctly signed and unexpired
but its guest-name claim is the empty string.  For the request carrying
it, extraction and validation both succeed, yet `authenticateWebSocket`
returns the empty identity (with no error) — not a non-empty identity. -/
theorem authenticateWebSocket_empty_identity_success :
    extractTokenFromRequest { authHeader := "", queryToken := "tmt" } = ("tmt", none) ∧
    validateToken 500 emptyNameToken = Except.ok emptyNameClaims ∧
    authenticateWebSocket emptyNameDecode 500 { authHeader := "", queryToken := "tmt" } =
      ("", none) :=
  ⟨by decide, by decide, by decide⟩

/-- C7 (amended): `authenticateWebSocket` succeeds (no error) exactly when
extraction and validation both succeed, and then returns the validated
claims' guest name — which may be empty; on any failure it returns the
empty identity together with an error. -/
theorem authenticateWebSocket_characterization (parse : String → Option Token)
    (now : Int) (r : Request) :
    ((authenticateWebSocket parse now r).2 = none ↔
        ∃ s c, extractTokenFromRequest r = (s, none) ∧
          validateTokenString parse now s = Except.ok c ∧
          (authenticateWebSocket parse now r).1 = c.guestName) ∧
    ((authenticateWebSocket parse now r).2 ≠ none →
        (authenticateWebSocket parse now r).1 = "") := by
  cases hex : extractTokenFromRequest r with
  | mk s0 err =>
      cases err with
      | some e =>
          have ha : authenticateWebSocket parse now r = ("", some e) := by
            unfold authenticateWebSocket
            rw [hex]
          rw [ha]
          refine ⟨⟨(fun hfalse => by cases hfalse), ?_⟩, fun _ => rfl⟩
          rintro ⟨s, c, hs, -, -⟩
          simp at hs
      | none =>
          cases hvs : validateTokenString parse now s0 with
          | error msg =>
              have ha := auth_error_of_validate_error parse now r s0 msg hex hvs
              rw [ha]
              refine ⟨⟨(fun hfalse => by cases hfalse), ?_⟩, fun _ => rfl⟩
              rintro ⟨s, c, hs, hc, -⟩
              injection hs with h1 h2
              subst h1
              rw [hvs] at hc
              cases hc
          | ok c =>
              have ha := auth_ok_of_validate_ok parse now r s0 c hex hvs
              rw [ha]
              refine ⟨⟨(fun _ => ⟨s0, c, rfl, hvs, rfl⟩), (fun _ => rfl)⟩, ?_⟩
              intro hne
              exact absurd rfl hne

/-- C8: Hub unregister idempotence (spec-modelled registry).  Removing the
same session twice leaves the same registry as removing it once, and
removing a session not in the registry leaves the registry unchanged. -/
theorem unregister_idempotent (reg : Registry) (s : Nat) :
    unregister (unregister reg s) s = unregister reg s ∧
    (s ∉ reg → unregister reg s = reg) :=
  ⟨Finset.erase_idem, fun h => Finset.erase_eq_of_not_mem h⟩

/-- C10: implicit method gate.  A method other than GET or POST is
answered with status 405 and the "Method not allowed" body, issuing no
token; GET and POST never take that rejection branch. -/
theorem handleGetToken_method_gate (now : Int) (method randomHex : String) :
    (method ≠ "GET" ∧ method ≠ "POST" →
        handleGetToken now method randomHex = Except.error (405, "Method not allowed")) ∧
    (method = "GET" ∨ method = "POST" →
        ∃ resp, handleGetToken now method randomHex = Except.ok resp) := by
  constructor
  · intro h
    unfold handleGetToken
    rw [if_pos h]
  · intro h
    have hn : ¬ (method ≠ "GET" ∧ method ≠ "POST") := by
      rcases h with h | h <;> simp [h]
    refine ⟨{ token := (generateGuestToken now ("guest-" ++ randomHex)).1,
              guestName := "guest-" ++ randomHex,
              expiresAt := (generateGuestToken now ("guest-" ++ randomHex)).2 }, ?_⟩
    unfold handleGetToken
    rw [if_neg hn]

end WSChat
